import Mathlib

/-!
Shallow embedding of `src/locallibrary/catalog/models.py`: the data model of a
small library-catalog application (Genre, Language, Author, Book, BookInstance)
together with the persistence-level operations its declarations induce
(save with validation, deletion with SET_NULL foreign keys, the
case-insensitive uniqueness constraint on Language names, BookInstance
creation with a generated 128-bit identifier and status default).

Dates are modelled as integers (day numbers) with the usual order; primary
keys of the auto-keyed models as naturals; the UUID primary key of
BookInstance as `Fin (2 ^ 128)`.  The database state is a record of row
lists, one per model, in insertion order (the order a queryset iterates in
for these models, none of which declares an ordering that matters here).
-/

namespace Catalog

/-- A 128-bit identifier, as produced by `uuid.uuid4` (UUIDField). -/
abbrev UUID : Type := Fin (2 ^ 128)

/-- `class Genre`: a book genre label. -/
structure Genre where
  id : Nat
  name : String
deriving Repr, DecidableEq

/-- `class Language`: a language label; its name is subject to a
case-insensitive uniqueness constraint (see `insertLanguage`). -/
structure Language where
  id : Nat
  name : String
deriving Repr, DecidableEq

/-- `class Author`: `date_of_birth` and `date_of_death` are nullable
(`null=True, blank=True`). -/
structure Author where
  id : Nat
  first_name : String
  last_name : String
  date_of_birth : Option Int
  date_of_death : Option Int
deriving Repr, DecidableEq

/-- `class Book`: `author` and `language` are nullable foreign keys
(`on_delete=SET_NULL, null=True`), `data_added` a nullable date, `genre`
a many-to-many relation held as the list of related Genre ids. -/
structure Book where
  id : Nat
  title : String
  author : Option Nat
  data_added : Option Int
  summary : String
  isbn : String
  genre : List Nat
  language : Option Nat
deriving Repr, DecidableEq

/-- `class BookInstance`: UUID primary key, nullable foreign keys to Book
and to the borrowing user, and a one-character status string. -/
structure BookInstance where
  id : UUID
  book : Option Nat
  imprint : String
  due_back : Option Int
  borrower : Option Nat
  status : String
deriving Repr, DecidableEq

/-- The persisted state: one row list per model. -/
structure DB where
  genres : List Genre
  languages : List Language
  authors : List Author
  books : List Book
  bookinstances : List BookInstance
deriving Repr, DecidableEq

/-- Foreign-key dereference of an Author id. -/
def getAuthor (db : DB) (aid : Nat) : Option Author :=
  db.authors.find? (fun a => a.id == aid)

/-- Foreign-key dereference of a Book id. -/
def getBook (db : DB) (bid : Nat) : Option Book :=
  db.books.find? (fun b => b.id == bid)

/-- Foreign-key dereference of a Genre id. -/
def getGenre (db : DB) (gid : Nat) : Option Genre :=
  db.genres.find? (fun g => g.id == gid)

/-- The fixed message of the `ValidationError` raised by `Book.clean`. -/
def bookCleanError : String :=
  "Дата добавления книги не может быть раньше даты рождения автора."

/-- `Book.clean` (models.py lines 100-103): if the book has an associated
author, a non-null `data_added`, and that author has a non-null
`date_of_birth`, raise a `ValidationError` when `data_added` is strictly
earlier than the birth date.  (A date value is always truthy in Python, so
the guards are exactly non-null checks.) -/
def Book.clean (db : DB) (b : Book) : Except String Unit :=
  match b.author.bind (getAuthor db), b.data_added with
  | some a, some d =>
    match a.date_of_birth with
    | some birth =>
      if d < birth then .error bookCleanError else .ok ()
    | none => .ok ()
  | _, _ => .ok ()

/-- Replace the row with `b`'s id if present, otherwise append `b`. -/
def upsertBook (bs : List Book) (b : Book) : List Book :=
  if bs.any (fun x => x.id == b.id) then
    bs.map (fun x => if x.id == b.id then b else x)
  else bs ++ [b]

/-- Saving a Book.  The validation hook `Book.clean` is declared in
models.py; its invocation before persisting is the framework's
(`full_clean` on the save path, as the spec describes: "Before persisting,
runs a validation check").  On a validation error nothing is written. -/
def saveBook (db : DB) (b : Book) : Except String DB :=
  match Book.clean db b with
  | .error e => .error e
  | .ok _ => .ok { db with books := upsertBook db.books b }

/-- Per-row form of the date invariant `Book.clean` protects: whenever the
row's author reference resolves, the added date is non-null and the author's
birth date is non-null, the added date is not earlier than the birth date. -/
def bookRowOk (db : DB) (b : Book) : Bool :=
  match b.author.bind (getAuthor db), b.data_added with
  | some a, some d =>
    match a.date_of_birth with
    | some birth => decide (birth ≤ d)
    | none => true
  | _, _ => true

/-- The invariant over the whole table of Book rows. -/
def booksOk (db : DB) : Bool :=
  db.books.all (bookRowOk db)

/-- The `violation_error_message` of the `UniqueConstraint` on
`Lower('name')` declared in `Language.Meta` (models.py lines 32-39). -/
def languageConflictError : String :=
  "Language already exists (case insensitive match)"

/-- SQL `LOWER` as applied by the constraint's `Lower('name')` expression:
the name string lowered letter by letter. -/
def lowerName (s : String) : String :=
  String.mk (s.data.map Char.toLower)

/-- Inserting a Language row: the storage-layer `UniqueConstraint` on
`Lower('name')` rejects the insert when some existing row's name matches
the new name ignoring letter case. -/
def insertLanguage (db : DB) (l : Language) : Except String DB :=
  if db.languages.any (fun x => lowerName x.name == lowerName l.name) then
    .error languageConflictError
  else
    .ok { db with languages := db.languages ++ [l] }

/-- Updating the name of the Language row with the given id: the same
constraint rejects the update when some OTHER row's name matches the new
name ignoring letter case. -/
def updateLanguageName (db : DB) (lid : Nat) (newName : String) :
    Except String DB :=
  if db.languages.any (fun x => x.id != lid && lowerName x.name == lowerName newName) then
    .error languageConflictError
  else
    .ok { db with
          languages := db.languages.map
            (fun x => if x.id == lid then { x with name := newName } else x) }

/-- Deleting an Author: the row is removed and, per
`on_delete=models.SET_NULL` on `Book.author` (models.py line 72), every
Book whose author reference pointed at it keeps all its fields but has the
reference set to null. -/
def deleteAuthor (db : DB) (aid : Nat) : DB :=
  { db with
    authors := db.authors.filter (fun a => a.id != aid),
    books := db.books.map
      (fun b => if b.author == some aid then { b with author := none } else b) }

/-- Deleting a Book: the row is removed and, per
`on_delete=models.SET_NULL` on `BookInstance.book` (models.py line 115),
every BookInstance whose book reference pointed at it keeps all its fields
but has the reference set to null. -/
def deleteBook (db : DB) (bid : Nat) : DB :=
  { db with
    books := db.books.filter (fun b => b.id != bid),
    bookinstances := db.bookinstances.map
      (fun bi => if bi.book == some bid then { bi with book := none } else bi) }

/-- `Book.display_genre` (models.py lines 92-96): iterate over the first
three rows of the related-genre queryset (`self.genre.all()[:3]`, the
resolving related rows in order) and join their names with ", ". -/
def display_genre (db : DB) (b : Book) : String :=
  String.intercalate ", " (((b.genre.filterMap (getGenre db)).take 3).map Genre.name)

/-- The spec's reading of the same view: "the names of the first three
associated genres joined by \", \"" — first the name list of the associated
genres, then its first three, then the join.  Stated from the spec's words,
to be compared with `display_genre`. -/
def displayGenreSpec (db : DB) (b : Book) : String :=
  String.intercalate ", " (((b.genre.filterMap (getGenre db)).map Genre.name).take 3)

/-- `BookInstance.LOAN_STATUS` (models.py lines 120-125): the choices,
each a (stored value, human-readable label) pair. -/
def LOAN_STATUS : List (String × String) :=
  [("m", "Maintenance"), ("o", "On loan"), ("a", "Available"), ("r", "Reserved")]

/-- The stored values of the choices. -/
def loanStatusCodes : List String := LOAN_STATUS.map Prod.fst

/-- Validation of the `status` field per its declaration (models.py lines
126-132): `choices=LOAN_STATUS` restricts non-empty values to the choice
keys, while `blank=True` lets the empty value through the choices check
(framework field validation skips the choices check for an empty value and
accepts emptiness because the field is blank); `max_length=1` bounds the
length. -/
def statusValid (s : String) : Bool :=
  if s == "" then true
  else loanStatusCodes.contains s && s.length ≤ 1

/-- Validated assignment of the status field of a BookInstance. -/
def setStatus (bi : BookInstance) (s : String) : Except String BookInstance :=
  if statusValid s then .ok { bi with status := s }
  else .error "Value is not a valid choice."

/-- Build a BookInstance row as creation does: `status` defaults to `"m"`
(`default='m'`) when none is supplied; the identifier is the one passed. -/
def mkBookInstance (theId : UUID) (book : Option Nat) (imprint : String)
    (due_back : Option Int) (borrower : Option Nat) (status : Option String) :
    BookInstance :=
  { id := theId, book := book, imprint := imprint, due_back := due_back,
    borrower := borrower, status := status.getD "m" }

/-- Creating a BookInstance (models.py line 114): if no identifier is
supplied, the fresh 128-bit random value `gen` produced by `uuid.uuid4`
(the field's `default`) is used as the primary key; the primary-key
constraint rejects an identifier already in use. -/
def createBookInstance (db : DB) (supplied : Option UUID) (gen : UUID)
    (book : Option Nat) (imprint : String) (due_back : Option Int)
    (borrower : Option Nat) (status : Option String) : Except String DB :=
  if db.bookinstances.any (fun x => x.id == supplied.getD gen) then
    .error "UNIQUE constraint failed: catalog_bookinstance.id"
  else
    .ok { db with
          bookinstances :=
            db.bookinstances ++
              [mkBookInstance (supplied.getD gen) book imprint due_back borrower status] }

/-- `BookInstance.__str__` (models.py lines 138-139): the formatted string
`f\x7bself.id\x7d (\x7bself.book.title\x7d)`.  It dereferences
`self.book.title` unconditionally, so with a null book reference the
attribute access fails (there is no title to read): the result is `none`. -/
def bookInstanceStr (db : DB) (bi : BookInstance) : Option String :=
  match bi.book with
  | none => none
  | some bid =>
    (getBook db bid).map (fun b => toString bi.id.val ++ " (" ++ b.title ++ ")")

/-! Helper lemmas. -/

theorem clean_error_iff (db : DB) (b : Book) :
    Book.clean db b = Except.error bookCleanError ↔
      ∃ aid a d birth, b.author = some aid ∧ getAuthor db aid = some a ∧
        b.data_added = some d ∧ a.date_of_birth = some birth ∧ d < birth := by
  constructor
  · intro h
    unfold Book.clean at h
    split at h
    · rename_i a d hA hd
      split at h
      · rename_i birth hbirth
        split at h
        · rename_i hlt
          rcases Option.bind_eq_some.mp hA with ⟨aid, haid, hga⟩
          exact ⟨aid, a, d, birth, haid, hga, hd, hbirth, hlt⟩
        · exact absurd h (by simp)
      · exact absurd h (by simp)
    · exact absurd h (by simp)
  · rintro ⟨aid, a, d, birth, h1, h2, h3, h4, h5⟩
    have hA : b.author.bind (getAuthor db) = some a := by
      rw [h1, Option.some_bind, h2]
    unfold Book.clean
    rw [hA, h3]
    simp [h4, h5]

theorem clean_ok_or_error (db : DB) (b : Book) :
    Book.clean db b = Except.ok () ∨ Book.clean db b = Except.error bookCleanError := by
  unfold Book.clean
  split
  · split
    · split
      · right; rfl
      · left; rfl
    · left; rfl
  · left; rfl

theorem clean_ok_iff_rowOk (db : DB) (b : Book) :
    Book.clean db b = Except.ok () ↔ bookRowOk db b = true := by
  unfold Book.clean bookRowOk
  rcases hA : b.author.bind (getAuthor db) with _ | a <;>
    rcases hd : b.data_added with _ | d <;>
      simp only [hA, hd] <;> try simp
  rcases hbirth : a.date_of_birth with _ | birth <;>
    simp only [hbirth] <;> simp

theorem bookRowOk_books_irrel (db : DB) (bs : List Book) (x : Book) :
    bookRowOk { db with books := bs } x = bookRowOk db x := rfl

theorem mem_upsertBook (bs : List Book) (b x : Book) (hx : x ∈ upsertBook bs b) :
    x = b ∨ x ∈ bs := by
  unfold upsertBook at hx
  split at hx
  · rcases List.mem_map.mp hx with ⟨y, hy, hxy⟩
    by_cases h : (y.id == b.id) = true
    · rw [if_pos h] at hxy; left; exact hxy.symm
    · rw [if_neg h] at hxy; right; exact hxy ▸ hy
  · rcases List.mem_append.mp hx with h | h
    · right; exact h
    · left; exact List.mem_singleton.mp h

/-! Concrete fixtures used by witnesses. -/

/-- An author with a birth date (day 100). -/
def authorW : Author :=
  { id := 1, first_name := "Lev", last_name := "Tolstoy",
    date_of_birth := some 100, date_of_death := none }

/-- A book whose added date (day 50) precedes its author's birth date. -/
def bookEarlyW : Book :=
  { id := 7, title := "Early", author := some 1, data_added := some 50,
    summary := "s", isbn := "1234567890123", genre := [], language := none }

/-- A book whose added date (day 200) follows its author's birth date. -/
def bookLateW : Book :=
  { id := 8, title := "Late", author := some 1, data_added := some 200,
    summary := "s", isbn := "1234567890123", genre := [], language := none }

/-- A database holding just `authorW`. -/
def dbAuthorW : DB :=
  { genres := [], languages := [], authors := [authorW], books := [],
    bookinstances := [] }

/-! The claims. -/

/-- C1: saving a Book is rejected with a validation error exactly when the
book has a non-null author reference that resolves to an author, a non-null
added date, that author has a non-null birth date, and the added date is
strictly earlier than the birth date; any rejection carries the fixed
message of `Book.clean` and produces no new state, and in every other case
the validation check passes and the save goes through. -/
theorem book_save_validation (db : DB) (b : Book) :
    ((∃ e, saveBook db b = Except.error e) ↔
       ∃ aid a d birth, b.author = some aid ∧ getAuthor db aid = some a ∧
         b.data_added = some d ∧ a.date_of_birth = some birth ∧ d < birth) ∧
    (saveBook db b = Except.error bookCleanError ∨
       saveBook db b = Except.ok { db with books := upsertBook db.books b }) := by
  have hdisj := clean_ok_or_error db b
  constructor
  · constructor
    · rintro ⟨e, he⟩
      rcases hdisj with hok | herr
      · rw [saveBook, hok] at he; exact absurd he (by simp)
      · exact (clean_error_iff db b).mp herr
    · intro hcond
      refine ⟨bookCleanError, ?_⟩
      rw [saveBook, (clean_error_iff db b).mpr hcond]
  · rcases hdisj with hok | herr
    · right; rw [saveBook, hok]
    · left; rw [saveBook, herr]

/-- Witness for C1 at a concrete input: the early book, whose added date 50
precedes its author's birth date 100, is rejected. -/
theorem book_save_validation_witness :
    ∃ e, saveBook dbAuthorW bookEarlyW = Except.error e :=
  (book_save_validation dbAuthorW bookEarlyW).1.mpr
    ⟨1, authorW, 50, 100, rfl, rfl, rfl, rfl, by decide⟩

/-- C3: a successful Book save preserves the table-wide date invariant:
if before the save every Book row with a resolving author reference,
non-null added date and non-null author birth date had added date ≥ birth
date, the same holds of every row afterwards. -/
theorem book_save_preserves_invariant (db db2 : DB) (b : Book)
    (hinv : booksOk db = true) (hsave : saveBook db b = Except.ok db2) :
    booksOk db2 = true := by
  unfold saveBook at hsave
  rcases hdisj : Book.clean db b with e | u
  · rw [hdisj] at hsave; exact absurd hsave (by simp)
  · rw [hdisj] at hsave
    have hdb2 : db2 = { db with books := upsertBook db.books b } := by
      cases hsave; rfl
    subst hdb2
    have hclean : Book.clean db b = Except.ok () := by rw [hdisj]
    unfold booksOk
    rw [List.all_eq_true]
    intro x hx
    rw [bookRowOk_books_irrel]
    rcases mem_upsertBook db.books b x hx with h | h
    · rw [h]; exact (clean_ok_iff_rowOk db b).mp hclean
    · exact List.all_eq_true.mp hinv x h

/-- Witness for C3: saving the late book into the author-only database
yields a state still satisfying the invariant. -/
theorem book_save_preserves_invariant_witness :
    booksOk dbAuthorW = true ∧
      booksOk { dbAuthorW with books := upsertBook dbAuthorW.books bookLateW } = true := by
  refine ⟨by decide, ?_⟩
  exact book_save_preserves_invariant dbAuthorW _ bookLateW (by decide) (by rfl)

/-- C2: the storage layer rejects any Language insert or update that would
make a name duplicate an existing one ignoring letter case — exactly when
such a clashing row exists (for updates, a clashing OTHER row) — and every
such rejection carries the constraint's fixed conflict message. -/
theorem language_name_case_insensitive_unique (db : DB) (l : Language)
    (lid : Nat) (newName : String) :
    ((∃ e, insertLanguage db l = Except.error e) ↔
       ∃ x ∈ db.languages, lowerName x.name = lowerName l.name) ∧
    (∀ e, insertLanguage db l = Except.error e → e = languageConflictError) ∧
    ((∃ e, updateLanguageName db lid newName = Except.error e) ↔
       ∃ x ∈ db.languages, x.id ≠ lid ∧ lowerName x.name = lowerName newName) ∧
    (∀ e, updateLanguageName db lid newName = Except.error e →
       e = languageConflictError) := by
  refine ⟨?_, ?_, ?_, ?_⟩
  · unfold insertLanguage
    split
    · rename_i hc
      simp only [List.any_eq_true, beq_iff_eq] at hc
      exact ⟨fun _ => hc, fun _ => ⟨languageConflictError, rfl⟩⟩
    · rename_i hc
      simp only [List.any_eq_true, beq_iff_eq] at hc
      constructor
      · rintro ⟨e, he⟩; exact absurd he (by simp)
      · intro hex; exact absurd hex hc
  · unfold insertLanguage
    split
    · intro e he; cases he; rfl
    · intro e he; exact absurd he (by simp)
  · unfold updateLanguageName
    split
    · rename_i hc
      simp only [List.any_eq_true, Bool.and_eq_true, bne_iff_ne, beq_iff_eq] at hc
      exact ⟨fun _ => hc, fun _ => ⟨languageConflictError, rfl⟩⟩
    · rename_i hc
      simp only [List.any_eq_true, Bool.and_eq_true, bne_iff_ne, beq_iff_eq] at hc
      constructor
      · rintro ⟨e, he⟩; exact absurd he (by simp)
      · intro hex; exact absurd hex hc
  · unfold updateLanguageName
    split
    · intro e he; cases he; rfl
    · intro e he; exact absurd he (by simp)

/-- A database holding the Language "english". -/
def dbEnglishW : DB :=
  { genres := [], languages := [{ id := 1, name := "english" }], authors := [],
    books := [], bookinstances := [] }

/-- Witness for C2: inserting "English" when "english" exists fails. -/
theorem language_name_case_insensitive_unique_witness :
    insertLanguage dbEnglishW { id := 2, name := "English" } =
      Except.error languageConflictError := by
  have h := language_name_case_insensitive_unique dbEnglishW
    { id := 2, name := "English" } 1 "x"
  obtain ⟨e, he⟩ := h.1.mpr ⟨{ id := 1, name := "english" }, by decide, by decide⟩
  rw [he, h.2.1 e he]

/-- The four genres A, B, C, D. -/
def dbGenresW : DB :=
  { genres := [{ id := 1, name := "A" }, { id := 2, name := "B" },
               { id := 3, name := "C" }, { id := 4, name := "D" }],
    languages := [], authors := [], books := [], bookinstances := [] }

/-- A book associated with the four genres A, B, C, D in that order. -/
def bookGenresW : Book :=
  { id := 1, title := "T", author := none, data_added := none, summary := "s",
    isbn := "1234567890123", genre := [1, 2, 3, 4], language := none }

/-- C5: for every book, `display_genre` returns the names of the first
three associated genres joined by ", " (the spec-side reading
`displayGenreSpec`), and on the concrete book with genres [A, B, C, D] it
returns exactly "A, B, C"; it is a pure read: the state is unchanged. -/
theorem display_genre_first_three :
    (∀ (db : DB) (b : Book), display_genre db b = displayGenreSpec db b) ∧
      display_genre dbGenresW bookGenresW = "A, B, C" := by
  constructor
  · intro db b
    unfold display_genre displayGenreSpec
    rw [List.map_take]
  · rfl

/-- C6: deleting an Author removes no Book row, and every Book keeps its
id, title, added date, summary, isbn, genres and language, while its author
reference is set to null when it pointed at the deleted Author and is kept
otherwise. -/
theorem deleteAuthor_frame (db : DB) (aid : Nat) (i : Nat)
    (h : i < db.books.length) :
    (deleteAuthor db aid).books.length = db.books.length ∧
    ∃ h2 : i < (deleteAuthor db aid).books.length,
      ((deleteAuthor db aid).books.get ⟨i, h2⟩).id = (db.books.get ⟨i, h⟩).id ∧
      ((deleteAuthor db aid).books.get ⟨i, h2⟩).title = (db.books.get ⟨i, h⟩).title ∧
      ((deleteAuthor db aid).books.get ⟨i, h2⟩).data_added = (db.books.get ⟨i, h⟩).data_added ∧
      ((deleteAuthor db aid).books.get ⟨i, h2⟩).summary = (db.books.get ⟨i, h⟩).summary ∧
      ((deleteAuthor db aid).books.get ⟨i, h2⟩).isbn = (db.books.get ⟨i, h⟩).isbn ∧
      ((deleteAuthor db aid).books.get ⟨i, h2⟩).genre = (db.books.get ⟨i, h⟩).genre ∧
      ((deleteAuthor db aid).books.get ⟨i, h2⟩).language = (db.books.get ⟨i, h⟩).language ∧
      ((deleteAuthor db aid).books.get ⟨i, h2⟩).author =
        (if (db.books.get ⟨i, h⟩).author = some aid then none
         else (db.books.get ⟨i, h⟩).author) := by
  have hlen : (deleteAuthor db aid).books.length = db.books.length := by
    simp [deleteAuthor]
  refine ⟨hlen, hlen ▸ h, ?_⟩
  have hget : (deleteAuthor db aid).books.get ⟨i, hlen ▸ h⟩ =
      (if (db.books.get ⟨i, h⟩).author == some aid
       then { db.books.get ⟨i, h⟩ with author := none }
       else db.books.get ⟨i, h⟩) := by
    simp [deleteAuthor, List.get_eq_getElem, List.getElem_map]
  rw [hget]
  by_cases hc : (db.books.get ⟨i, h⟩).author = some aid <;>
    simp only [List.get_eq_getElem] at hc <;> simp [hc]

/-- A database with one author and two books, one referencing the author. -/
def dbDelAuthorW : DB :=
  { genres := [], languages := [], authors := [authorW],
    books := [bookLateW,
              { id := 9, title := "Orphan", author := none, data_added := none,
                summary := "s", isbn := "1234567890123", genre := [],
                language := none }],
    bookinstances := [] }

/-- Witness for C6 at a concrete state: after deleting author 1, the first
book row is intact with a nulled author reference. -/
theorem deleteAuthor_frame_witness :
    0 < dbDelAuthorW.books.length ∧
      (deleteAuthor dbDelAuthorW 1).books.length = dbDelAuthorW.books.length := by
  refine ⟨by decide, ?_⟩
  exact (deleteAuthor_frame dbDelAuthorW 1 0 (by decide)).1

/-- C7: deleting a Book removes no BookInstance row, and every
BookInstance keeps its id, imprint, due date, borrower and status, while
its book reference is set to null when it pointed at the deleted Book and
is kept otherwise. -/
theorem deleteBook_frame (db : DB) (bid : Nat) (i : Nat)
    (h : i < db.bookinstances.length) :
    (deleteBook db bid).bookinstances.length = db.bookinstances.length ∧
    ∃ h2 : i < (deleteBook db bid).bookinstances.length,
      ((deleteBook db bid).bookinstances.get ⟨i, h2⟩).id = (db.bookinstances.get ⟨i, h⟩).id ∧
      ((deleteBook db bid).bookinstances.get ⟨i, h2⟩).imprint = (db.bookinstances.get ⟨i, h⟩).imprint ∧
      ((deleteBook db bid).bookinstances.get ⟨i, h2⟩).due_back = (db.bookinstances.get ⟨i, h⟩).due_back ∧
      ((deleteBook db bid).bookinstances.get ⟨i, h2⟩).borrower = (db.bookinstances.get ⟨i, h⟩).borrower ∧
      ((deleteBook db bid).bookinstances.get ⟨i, h2⟩).status = (db.bookinstances.get ⟨i, h⟩).status ∧
      ((deleteBook db bid).bookinstances.get ⟨i, h2⟩).book =
        (if (db.bookinstances.get ⟨i, h⟩).book = some bid then none
         else (db.bookinstances.get ⟨i, h⟩).book) := by
  have hlen : (deleteBook db bid).bookinstances.length = db.bookinstances.length := by
    simp [deleteBook]
  refine ⟨hlen, hlen ▸ h, ?_⟩
  have hget : (deleteBook db bid).bookinstances.get ⟨i, hlen ▸ h⟩ =
      (if (db.bookinstances.get ⟨i, h⟩).book == some bid
       then { db.bookinstances.get ⟨i, h⟩ with book := none }
       else db.bookinstances.get ⟨i, h⟩) := by
    simp [deleteBook, List.get_eq_getElem, List.getElem_map]
  rw [hget]
  by_cases hc : (db.bookinstances.get ⟨i, h⟩).book = some bid <;>
    simp only [List.get_eq_getElem] at hc <;> simp [hc]

/-- A database with one book and one instance of it. -/
def dbDelBookW : DB :=
  { genres := [], languages := [], authors := [],
    books := [bookGenresW],
    bookinstances := [{ id := ⟨0, by norm_num⟩, book := some 1, imprint := "i",
                        due_back := none, borrower := none, status := "m" }] }

/-- Witness for C7 at a concrete state: after deleting book 1, the
instance row is still there. -/
theorem deleteBook_frame_witness :
    0 < dbDelBookW.bookinstances.length ∧
      (deleteBook dbDelBookW 1).bookinstances.length = dbDelBookW.bookinstances.length := by
  refine ⟨by norm_num [dbDelBookW], ?_⟩
  exact (deleteBook_frame dbDelBookW 1 0 (by norm_num [dbDelBookW])).1

/-- The empty database. -/
def dbEmptyW : DB :=
  { genres := [], languages := [], authors := [], books := [],
    bookinstances := [] }

/-- A concrete 128-bit identifier. -/
def uuidW : UUID := ⟨42, by norm_num⟩

/-- The database after registering one instance under `uuidW`. -/
def dbInstW : DB :=
  { dbEmptyW with bookinstances := [mkBookInstance uuidW none "i" none none none] }

/-- C4: a successfully created BookInstance carries the supplied identifier
when one was given and otherwise the fresh 128-bit random value drawn by
the field's default generator, which becomes the primary key; the
identifier is present by construction (the field is the key, never null),
it fits in 128 bits, and pairwise distinctness of identifiers is preserved
by creation whether or not one was supplied. -/
theorem bookinstance_id_unique (db db2 : DB) (sup : Option UUID) (gen : UUID)
    (bk : Option Nat) (imp : String) (due : Option Int) (bor : Option Nat)
    (st : Option String)
    (hnd : (db.bookinstances.map BookInstance.id).Nodup)
    (h : createBookInstance db sup gen bk imp due bor st = Except.ok db2) :
    (db2.bookinstances.map BookInstance.id).Nodup ∧
    db2.bookinstances.getLast? =
      some (mkBookInstance (sup.getD gen) bk imp due bor st) ∧
    ∀ bi ∈ db2.bookinstances, bi.id.val < 2 ^ 128 := by
  unfold createBookInstance at h
  split at h
  · exact absurd h (by simp)
  · rename_i hfresh
    have hdb2 : db2 =
        { db with bookinstances :=
            db.bookinstances ++ [mkBookInstance (sup.getD gen) bk imp due bor st] } := by
      cases h; rfl
    subst hdb2
    refine ⟨?_, ?_, ?_⟩
    · rw [List.map_append]
      rw [List.nodup_append]
      refine ⟨hnd, List.nodup_singleton _, ?_⟩
      intro u hu hu2
      rcases List.mem_map.mp hu with ⟨y, hy, hyu⟩
      have hid : u = sup.getD gen := by
        simpa [mkBookInstance] using List.mem_singleton.mp hu2
      apply hfresh
      rw [List.any_eq_true]
      exact ⟨y, hy, by rw [beq_iff_eq, hyu, hid]⟩
    · exact List.getLast?_concat _
    · exact fun bi _ => bi.id.isLt

/-- Witness for C4: creating an instance in the empty catalog with no
supplied identifier keeps the identifiers pairwise distinct. -/
theorem bookinstance_id_unique_witness :
    (dbEmptyW.bookinstances.map BookInstance.id).Nodup ∧
      (dbInstW.bookinstances.map BookInstance.id).Nodup := by
  refine ⟨by simp [dbEmptyW], ?_⟩
  exact (bookinstance_id_unique dbEmptyW dbInstW none uuidW none "i" none none
    none (by simp [dbEmptyW]) (by rfl)).1

theorem statusValid_iff (s : String) :
    statusValid s = true ↔ s ∈ loanStatusCodes ∨ s = "" := by
  unfold statusValid
  by_cases he : s = ""
  · subst he; simp
  · rw [if_neg (by simpa using he)]
    constructor
    · intro hv
      left
      simp only [Bool.and_eq_true] at hv
      simpa [loanStatusCodes, LOAN_STATUS] using hv.1
    · intro h
      rcases h with hmem | he2
      · have h4 : s = "m" ∨ s = "o" ∨ s = "a" ∨ s = "r" := by
          simpa [loanStatusCodes, LOAN_STATUS] using hmem
        rcases h4 with rfl | rfl | rfl | rfl <;> decide
      · exact absurd he2 he

/-- An instance currently Available. -/
def biAvailW : BookInstance :=
  { id := ⟨7, by norm_num⟩, book := none, imprint := "i", due_back := none,
    borrower := none, status := "a" }

/-- C8 counterexample: the blank value passes the status field's
validation and is stored — `blank=True` lets the empty string through the
choices check — although it is none of the four enumerated values, so the
claim that no value outside the four can be stored fails. -/
theorem status_closed_enum_counterexample :
    (∃ bi2, setStatus biAvailW "" = Except.ok bi2 ∧ bi2.status = "") ∧
      ¬ "" ∈ loanStatusCodes := by
  exact ⟨⟨{ biAvailW with status := "" }, rfl, rfl⟩, by decide⟩

/-- C8 amended: the values the status field accepts are exactly the four
enumerated codes plus blank (the empty value, admitted because the field
is declared blank); no transition rule is enforced — acceptance does not
depend on the current status, so every status can be set from every other,
and a successful assignment changes only the status field. -/
theorem status_closed_enum (bi : BookInstance) (s : String) :
    ((∃ bi2, setStatus bi s = Except.ok bi2) ↔ (s ∈ loanStatusCodes ∨ s = "")) ∧
    (∀ bi2, setStatus bi s = Except.ok bi2 → bi2 = { bi with status := s }) := by
  constructor
  · constructor
    · rintro ⟨bi2, hbi2⟩
      unfold setStatus at hbi2
      split at hbi2
      · rename_i hv; exact (statusValid_iff s).mp hv
      · exact absurd hbi2 (by simp)
    · intro hs
      refine ⟨{ bi with status := s }, ?_⟩
      unfold setStatus
      rw [if_pos ((statusValid_iff s).mpr hs)]
  · intro bi2 hbi2
    unfold setStatus at hbi2
    split at hbi2
    · cases hbi2; rfl
    · exact absurd hbi2 (by simp)

/-- Witness for C8 (amended): the Available instance can be set On loan. -/
theorem status_closed_enum_witness :
    ∃ bi2, setStatus biAvailW "o" = Except.ok bi2 :=
  (status_closed_enum biAvailW "o").1.mpr (Or.inl (by decide))

/-- An instance whose book reference is null. -/
def biNoBookW : BookInstance :=
  { id := ⟨9, by norm_num⟩, book := none, imprint := "i", due_back := none,
    borrower := none, status := "m" }

/-- C9: the string representation of a BookInstance is not total: whenever
the book reference is null — a state the schema permits and which
`deleteBook` produces on dependent instances — no string results, because
the representation unconditionally dereferences the referenced book's
title. -/
theorem bookInstanceStr_not_total (db : DB) (bi : BookInstance)
    (h : bi.book = none) : bookInstanceStr db bi = none := by
  unfold bookInstanceStr
  rw [h]

/-- Witness for C9 at a concrete instance with a null book reference. -/
theorem bookInstanceStr_not_total_witness :
    biNoBookW.book = none ∧ bookInstanceStr dbEmptyW biNoBookW = none :=
  ⟨rfl, bookInstanceStr_not_total dbEmptyW biNoBookW rfl⟩

/-- C10: a BookInstance created without an explicit status gets the
declared default "m" (Maintenance); the blank value is also accepted by
the field's validation even though it is not among the four enumerated
codes. -/
theorem bookinstance_status_default (db db2 : DB) (sup : Option UUID)
    (gen : UUID) (bk : Option Nat) (imp : String) (due : Option Int)
    (bor : Option Nat)
    (h : createBookInstance db sup gen bk imp due bor none = Except.ok db2) :
    (∃ bi, db2.bookinstances.getLast? = some bi ∧ bi.status = "m") ∧
    statusValid "" = true ∧ ¬ "" ∈ loanStatusCodes := by
  refine ⟨?_, by decide, by decide⟩
  unfold createBookInstance at h
  split at h
  · exact absurd h (by simp)
  · have hdb2 : db2 =
        { db with bookinstances :=
            db.bookinstances ++ [mkBookInstance (sup.getD gen) bk imp due bor none] } := by
      cases h; rfl
    subst hdb2
    exact ⟨_, List.getLast?_concat _, rfl⟩

/-- A second concrete 128-bit identifier. -/
def uuidW2 : UUID := ⟨43, by norm_num⟩

/-- Witness for C10: an instance created with no status in the empty
catalog ends up with status "m". -/
theorem bookinstance_status_default_witness :
    ∃ bi, ({ dbEmptyW with
      bookinstances := [mkBookInstance uuidW2 none "i" none none none] } : DB).bookinstances.getLast? =
        some bi ∧ bi.status = "m" :=
  (bookinstance_status_default dbEmptyW _ none uuidW2 none "i" none none (by rfl)).1

end Catalog
